import Mathlib

/-!
Shallow embedding of the connection/protocol engine of the yeelight
asyncio client (src/yeelight/aio.py).  Pure data is translated directly;
the async read loop is embedded as an explicit step function over a state
record, with the outcome of each suspension point (readline result,
timeout, acceptance of the reverse connection, ...) supplied as an input.
-/

namespace Yeelight

/-- Values appearing in the JSON dictionaries that the engine hands to the
notification callback: strings, booleans and string arrays are the shapes
produced in aio.py. -/
inductive JVal
  | str (s : String)
  | bool (b : Bool)
  | arr (xs : List String)
  deriving DecidableEq, Repr

def JVal.isBool : JVal → Bool
  | .bool _ => true
  | _ => false

/-- A decoded JSON line from the device.  The fields mirror exactly the keys
_async_connection_loop reads from `decoded_line` (aio.py:281-313): "id",
"method", "result", "error" (code and message) and "params".  A key absent
from the JSON dictionary is `none`. -/
structure Msg where
  id? : Option Nat
  method? : Option String
  result : Option (List String)
  error? : Option (Nat × String)
  params : Option (List (String × JVal))
  deriving DecidableEq, Repr

/-- A JSON dictionary passed to the registered notification callback. -/
abbrev Payload := List (String × JVal)

/-- aio.py:28 -/
def KEY_CONNECTED : String := "connected"

/-- aio.py:25 -/
def TIMEOUT : Nat := 15

/-- aio.py:26 -/
def PING_INTERVAL : Nat := 60

/-- aio.py:30 -/
def RECONNECT_ERRORS : List String := ["client quota exceeded", "invalid command"]

/-- aio.py:31 -/
def BACKOFF_ERRORS : List String := ["client quota exceeded"]

/-- Python `d[k] = v` on a dict: overwrite in place if the key is present,
append otherwise. -/
def dictSet (d : Payload) (k : String) (v : JVal) : Payload :=
  if d.any (fun kv => kv.1 == k) then
    d.map (fun kv => if kv.1 == k then (k, v) else kv)
  else d ++ [(k, v)]

/-- Whether a callback payload carries a boolean value under the
"connected" key. -/
def hasConnectedBool (p : Payload) : Bool :=
  p.any (fun kv => kv.1 == KEY_CONNECTED && kv.2.isBool)

/-- The synthetic success payload the music-mode branch of
async_send_command hands to the callback (aio.py:97). -/
def syntheticSuccessPayload : Payload := [("result", .arr ["ok"])]

/-- The payload built on the ping-reply path of the read loop
(aio.py:287-289). -/
def pingReplyPayload (power : String) : Payload :=
  [("power", .str power), (KEY_CONNECTED, .bool true)]

/-- The payload built on the props-notification path of the read loop
(aio.py:313-314): the notification params with connected set to true. -/
def propsPayload (params : List (String × JVal)) : Payload :=
  dictSet params KEY_CONNECTED (.bool true)

/-- The payload emitted on successful (re)connection (aio.py:178, 358, 801). -/
def connectedPayload : Payload := [(KEY_CONNECTED, .bool true)]

/-- The payload emitted on disconnection (aio.py:151, 769, 795). -/
def disconnectedPayload : Payload := [(KEY_CONNECTED, .bool false)]

/-- The music-mode branch of async_send_command returns this literal
result dictionary (aio.py:98). -/
def okMsg : Msg :=
  { id? := none, method? := none, result := some ["ok"], error? := none, params := none }

/-- Errors async_send_command can raise: BulbException for a closed write
socket (aio.py:127), asyncio.TimeoutError when the future is not resolved
within TIMEOUT (aio.py:100), BulbException on an error payload
(aio.py:103-104). -/
inductive SendError
  | connectionClosed
  | commandTimeout
  | deviceError (e : Nat × String)
  deriving DecidableEq, Repr

/-- Embeds AsyncBulb.async_send_command together with the inner
_async_send_command (aio.py:82-130).  `writerPresent` is whether
self._async_writer is set at write time; `replyWithinTimeout` is the
correlated reply the read loop sets on the future within TIMEOUT, if any.
Returns the call's result together with the payloads passed to the
notification callback (only the music-mode branch notifies,
aio.py:96-97). -/
def async_send_command (musicModeState writerPresent callbackPresent : Bool)
    (replyWithinTimeout : Option Msg) : Except SendError Msg × List Payload :=
  if writerPresent then
    if musicModeState then
      (.ok okMsg, if callbackPresent then [syntheticSuccessPayload] else [])
    else
      match replyWithinTimeout with
      | none => (.error .commandTimeout, [])
      | some resp =>
        match resp.error? with
        | some e => (.error (.deviceError e), [])
        | none => (.ok resp, [])
  else (.error .connectionClosed, [])

/-- Outcomes of entering async_start_music (aio.py:719-728): the
AssertionError for a conflicting plain start, the no-op "ok" return when
the reverse connection is already active, or falling through to the
handshake. -/
inductive StartMusicEntry
  | conflict
  | okAlready
  | proceed
  deriving DecidableEq, Repr

/-- Embeds the entry guards of AsyncBulb.async_start_music
(aio.py:719-728): `music_mode` is self._music_mode (caller intent),
`music_mode_state` is self._music_mode_state (reverse connection active),
`reconnect` the keyword argument. -/
def start_music_entry (music_mode music_mode_state reconnect : Bool) :
    StartMusicEntry :=
  if music_mode && !reconnect then .conflict
  else if music_mode_state then .okAlready
  else .proceed

/-- The state of an AsyncBulb that the connection loop reads and writes.
Fields: the local variables of _async_connection_loop (timeouts, ping_id,
aio.py:200-201), the instance attributes set in AsyncBulb.__init__
(aio.py:64-80: _async_cmd_id, _async_pending_commands modelled as the list
of its keys, _socket_backoff, _music_expect_disconnect, the presence of
_async_writer and _async_callback), the _music_mode / _music_mode_state /
_is_listening / _last_properties attributes inherited from main.Bulb (only
the "power" entry of _last_properties is tracked, the one the loop reads),
whether _music_mode_lock is held, and the results set on pending futures
this session. -/
structure LoopState where
  timeouts : Nat
  ping_id : Int
  cmd_id : Nat
  pending : List Nat
  fulfilled : List (Nat × Msg)
  socket_backoff : Bool
  music_mode_state : Bool
  music_mode : Bool
  music_expect_disconnect : Bool
  last_power : String
  writer_present : Bool
  callback_present : Bool
  music_lock_locked : Bool
  is_listening : Bool
  deriving DecidableEq, Repr

/-- The shapes a returned line can take (aio.py:260-279): a line that
decodes to JSON, a line that fails to decode, a non-empty read with no
line terminator, or an empty read (peer closed). -/
inductive LineRead
  | msg (m : Msg)
  | invalid
  | noTerminator
  | closed
  deriving DecidableEq, Repr

/-- What one `await self._async_reader.readline()` under the
PING_INTERVAL + TIMEOUT deadline produced (aio.py:217-258): a deadline
expiry, a line, or one of the caught exceptions (socket.error, ValueError
for an overrun buffer, BulbException). -/
inductive ReadEvent
  | timedOut
  | line (r : LineRead)
  | sockError
  | overrun
  | bulbError
  deriving DecidableEq, Repr

/-- How one loop iteration ends: continue with the next readline, return
from _async_connection_loop (abandon the connection), or let an unhandled
exception escape the loop (which terminates the listen task, since
_async_run_listen re-raises through its finally block). -/
inductive LoopControl
  | next
  | abandon
  | crashed
  deriving DecidableEq, Repr

/-- Externally visible actions of one loop iteration: a raw command write
through _async_send_command (with its allocated id and whether a future
was registered), the keepalive turn_on / turn_off(is_ping) issued in music
mode, and an invocation of the notification callback. -/
inductive LoopAction
  | sent (id : Nat) (method : String) (params : List String) (createFuture : Bool)
  | keepaliveTurnOn
  | keepaliveTurnOff (is_ping : Bool)
  | notified (p : Payload)
  deriving DecidableEq, Repr

/-- Embeds the flag logic at the top of AsyncBulb.async_turn_off
(aio.py:539-544), which runs before the power-off command is built and
sent: a non-ping turn-off while music mode is desired marks the coming
disconnect as expected and drops the desire. -/
def async_turn_off_flags (st : LoopState) (is_ping : Bool) : LoopState :=
  if st.music_mode && !is_ping then
    { st with music_expect_disconnect := true, music_mode := false }
  else st

/-- Whether a decoded line is one of the reconnect-triggering device
errors (aio.py:293-296). -/
def reconnect_error (m : Msg) : Bool :=
  match m.error? with
  | some e => RECONNECT_ERRORS.contains e.2
  | none => false

/-- Whether a decoded line is one of the errors that force backoff
(aio.py:301-303). -/
def backoff_error (m : Msg) : Bool :=
  match m.error? with
  | some e => BACKOFF_ERRORS.contains e.2
  | none => false

/-- Embeds the pending-command pop of the read loop (aio.py:281-284): a
line carrying an id pops the matching entry of _async_pending_commands, if
any, and sets the full decoded line as that future's result.  `pending`
is the dict's key set, `fulfilled` records the set results. -/
def dispatch_id (pending : List Nat) (fulfilled : List (Nat × Msg)) (m : Msg) :
    List Nat × List (Nat × Msg) :=
  match m.id? with
  | none => (pending, fulfilled)
  | some i =>
    if i ∈ pending then (pending.erase i, (i, m) :: fulfilled)
    else (pending, fulfilled)

/-- Delivery of a sequence of reply lines to the pending-command table:
the id-dispatch block applied to each line in arrival order.  (No other
part of the loop touches _async_pending_commands during a session.) -/
def route_msgs (pending : List Nat) (fulfilled : List (Nat × Msg)) :
    List Msg → List Nat × List (Nat × Msg)
  | [] => (pending, fulfilled)
  | m :: ms =>
    let pf := dispatch_id pending fulfilled m
    route_msgs pf.1 pf.2 ms

/-- The merged "power" entry after _set_last_properties(params, update=True)
on the props path.  (The merge itself lives in main.py, outside src/; per
the spec a partial notification merges key-wise, so only a "power" entry in
the params changes the tracked power value.) -/
def last_power_after_update (lp : String) (params : List (String × JVal)) : String :=
  match params.lookup "power" with
  | some (.str v) => v
  | _ => lp

/-- Embeds the error-message and props blocks of the read loop
(aio.py:293-318), reached after the id block (the id block has no
`continue` when it fulfils a future, so such lines fall through to
here). -/
def after_id (_callbackRaises : Bool) (st : LoopState) (m : Msg) :
    LoopState × List LoopAction × LoopControl :=
  if reconnect_error m then
    (if backoff_error m then { st with socket_backoff := true } else st, [], .abandon)
  else if m.method? = some "props" then
    match m.params with
    | some ps =>
      let st' := { st with last_power := last_power_after_update st.last_power ps }
      if st.callback_present then
        -- aio.py:315-318: the callback call is wrapped in try/except, so a
        -- raising callback is logged and the loop continues either way
        (st', [.notified (propsPayload ps)], .next)
      else
        -- calling a None callback raises TypeError, caught by the same
        -- broad except clause
        (st', [], .next)
    | none => (st, [], .crashed)
  else (st, [], .next)

/-- Embeds the dispatch of one decoded line (aio.py:281-318): the id block
(pop a pending future, else the ping-reply path), then the error and props
blocks.  The ping-reply path (aio.py:285-291) reads result[0], merges the
power value, and calls the callback with no try/except around it: a
missing result, an unset callback or a raising callback all escape the
loop. -/
def dispatch_line (callbackRaises : Bool) (st : LoopState) (m : Msg) :
    LoopState × List LoopAction × LoopControl :=
  match m.id? with
  | some i =>
    if i ∈ st.pending then
      after_id callbackRaises
        { st with pending := st.pending.erase i, fulfilled := (i, m) :: st.fulfilled } m
    else if (i : Int) = st.ping_id then
      match m.result with
      | some (p :: _) =>
        let st' := { st with last_power := p }
        if st.callback_present then
          if callbackRaises then (st', [.notified (pingReplyPayload p)], .crashed)
          else (st', [.notified (pingReplyPayload p)], .next)
        else (st', [], .crashed)
      | _ => (st, [], .crashed)
    else after_id callbackRaises st m
  | none => after_id callbackRaises st m

/-- Embeds one iteration of _async_connection_loop (aio.py:199-318) as a
function of what the guarded readline produced.  `callbackRaises` is
whether the external notification callback raises when invoked during this
iteration. -/
def connection_loop_step (callbackRaises : Bool) (st : LoopState) (ev : ReadEvent) :
    LoopState × List LoopAction × LoopControl :=
  -- aio.py:212-216: in music mode the backoff flag is force-cleared before
  -- each wait
  let st := if st.music_mode_state then { st with socket_backoff := false } else st
  match ev with
  | .timedOut =>
    if st.music_mode_state then
      -- aio.py:222-234: keepalive ping appropriate to the last known power
      -- state; both variants go through the music-mode branch of
      -- async_send_command (no future, synthetic callback payload); a
      -- missing writer raises BulbException out of the except handler
      if st.writer_present then
        if st.last_power == "on" then
          ({ st with cmd_id := st.cmd_id + 1 },
           .keepaliveTurnOn ::
             (if st.callback_present then [.notified syntheticSuccessPayload] else []),
           .next)
        else
          let st' := async_turn_off_flags st true
          ({ st' with cmd_id := st'.cmd_id + 1 },
           .keepaliveTurnOff true ::
             (if st.callback_present then [.notified syntheticSuccessPayload] else []),
           .next)
      else (st, [], .crashed)
    else
      -- aio.py:235-247
      if st.timeouts + 1 = 2 then ({ st with timeouts := st.timeouts + 1 }, [], .abandon)
      else if st.writer_present then
        ({ st with timeouts := st.timeouts + 1, cmd_id := st.cmd_id + 1,
                   ping_id := (st.cmd_id + 1 : Nat) },
         [.sent (st.cmd_id + 1) "get_prop" ["power"] false], .next)
      else
        -- _async_send_command increments the id then raises BulbException
        -- (aio.py:110,126-127), escaping the TimeoutError handler
        ({ st with timeouts := st.timeouts + 1, cmd_id := st.cmd_id + 1 }, [], .crashed)
  | .sockError => (st, [], .abandon)
  | .overrun => (st, [], .abandon)
  | .bulbError => (st, [], .abandon)
  | .line r =>
    match r with
    | .noTerminator => (st, [], .abandon)
    | .closed => (st, [], .abandon)
    | .invalid =>
      -- aio.py:263-266,275-279: a terminated non-empty line clears the
      -- backoff flag and the timeout counter even when it fails to decode
      ({ st with socket_backoff := false, timeouts := 0 }, [], .next)
    | .msg m =>
      dispatch_line callbackRaises { st with socket_backoff := false, timeouts := 0 } m

/-- The state of a freshly constructed AsyncBulb (aio.py:64-80): no
callback, no pending commands, no transport, command id 0, backoff flag
clear, music-expect-disconnect clear, music lock free; listening off and
both music-mode booleans off (set in main.Bulb.__init__, reflected here as
the Stopped / not-in-music-mode initial state the spec describes).
timeouts and ping_id take the values the loop's local variables start from
(aio.py:200-201). -/
def initial_state : LoopState :=
  { timeouts := 0, ping_id := -1, cmd_id := 0, pending := [], fulfilled := [],
    socket_backoff := false, music_mode_state := false, music_mode := false,
    music_expect_disconnect := false, last_power := "off",
    writer_present := false, callback_present := false,
    music_lock_locked := false, is_listening := false }

/-- Embeds AsyncBulb._async_backoff (aio.py:192-197): sleep a full TIMEOUT
only if the flag was already set, then set it unconditionally.  Returns
the new state and whether it slept. -/
def async_backoff (st : LoopState) : LoopState × Bool :=
  ({ st with socket_backoff := true }, st.socket_backoff)

/-- Embeds the success branch of _async_reconnect_loop (aio.py:174-188):
_async_connected resets the command id to 0 and installs the new
transport, the callback is notified connected=true, and
_music_mode_state is cleared.  The backoff flag is not touched here. -/
def reconnect_success (st : LoopState) : LoopState × List LoopAction :=
  ({ st with cmd_id := 0, writer_present := true, music_mode_state := false },
   if st.callback_present then [.notified connectedPayload] else [])

/-- Embeds the teardown part of the finally block of _async_run_listen
(aio.py:139-151): _async_close_reader_writer clears the pending table and
the transport, then a disconnect notification is delivered unless no
callback is registered, the disconnect was expected, or a music-mode
transition holds _music_mode_lock.  (The backoff sleep and the reconnect
loop that follow are embedded separately as async_backoff and
reconnect_success.) -/
def run_listen_finalize (st : LoopState) : LoopState × List LoopAction :=
  let st' := { st with pending := [], writer_present := false }
  if st.callback_present && !st.music_expect_disconnect && !st.music_lock_locked then
    (st', [.notified disconnectedPayload])
  else (st', [])

/-- When the device's inbound music-mode connection is accepted by the
local listener, relative to the two nested waits of async_start_music
(aio.py:762-778): within the 0.5-second short wait, within the remaining
TIMEOUT - 0.5 of the full request timeout, or not at all. -/
inductive AcceptWhen
  | early
  | late
  | never
  deriving DecidableEq, Repr

/-- The failures async_start_music raises after tearing down: the
BulbException for the accept-wait expiring (aio.py:773-778) and the
BulbException for the listener not signalling (aio.py:790-798). -/
inductive MusicError
  | enableTimeout
  | listenerTimeout
  deriving DecidableEq, Repr

/-- Externally visible actions of the music-mode handshake
(aio.py:757-801): the set_music command write, the stop of the old listen
session, a callback invocation, the forced async_stop_music teardown, and
the adoption of the accepted connection as the active transport (with the
restart of the listen task on it). -/
inductive MusicAction
  | sentSetMusic
  | stoppedListening
  | notify (p : Payload)
  | forceStopMusic
  | adoptConnection
  deriving DecidableEq, Repr

/-- Embeds the handshake body of async_start_music under the command lock
plus the final connected notification (aio.py:757-801): send set_music and
stop the forward session; wait 0.5s for the accept — on expiry notify
connected=false once and keep waiting for the remaining TIMEOUT - 0.5,
force-stopping and raising on a second expiry; on acceptance adopt the
connection and wait up to TIMEOUT for the listen task to signal, then
notify connected=true.  `callbackPresent` is whether _async_callback is
set; `listenerStarts` is whether the restarted listen task sets
_listen_event within TIMEOUT. -/
def start_music_accept (callbackPresent : Bool) (accept : AcceptWhen)
    (listenerStarts : Bool) : List MusicAction × Except MusicError String :=
  let pre : List MusicAction := [.sentSetMusic, .stoppedListening]
  let transient : List MusicAction :=
    if callbackPresent then [.notify disconnectedPayload] else []
  let adopted : List MusicAction → List MusicAction × Except MusicError String :=
    fun acc =>
      if listenerStarts then
        (acc ++ [.adoptConnection] ++
           (if callbackPresent then [.notify connectedPayload] else []), .ok "ok")
      else
        (acc ++ [.adoptConnection, .forceStopMusic] ++
           (if callbackPresent then [.notify disconnectedPayload] else []),
         .error .listenerTimeout)
  match accept with
  | .early => adopted pre
  | .late => adopted (pre ++ transient)
  | .never => (pre ++ transient ++ [.forceStopMusic], .error .enableTimeout)

/-! ### Claim C2 -/

/-- Claim C2: with music mode inactive, async_send_command fails with the
device error exactly when the correlated reply carries an error payload,
with the connection-closed error exactly when there is no writable
connection at send time, and with the timeout error exactly when no
matching reply arrives within the TIMEOUT-second (15 s) request timeout;
otherwise it returns the reply. -/
theorem C2_send_command_contract (wp : Bool) (reply : Option Msg) :
    TIMEOUT = 15 ∧
    ((async_send_command false wp true reply).1 = .error .connectionClosed ↔
      wp = false) ∧
    ((async_send_command false wp true reply).1 = .error .commandTimeout ↔
      (wp = true ∧ reply = none)) ∧
    (∀ e, (async_send_command false wp true reply).1 = .error (.deviceError e) ↔
      (wp = true ∧ ∃ m, reply = some m ∧ m.error? = some e)) ∧
    (∀ m, (async_send_command false wp true reply).1 = .ok m ↔
      (wp = true ∧ reply = some m ∧ m.error? = none)) := by
  refine ⟨rfl, ?_, ?_, ?_, ?_⟩ <;>
    cases wp <;>
      cases reply with
      | none => simp [async_send_command]
      | some m => cases h : m.error? <;> simp [async_send_command, h]

/-! ### Claim C4 -/

/-- Claim C4 counterexample: a plain (non-reconnect) start with
_music_mode_state (MusicModeActive) true but _music_mode
(MusicModeDesired) false — the state async_turn_off leaves behind while
the music-mode connection is still up — returns the no-op success, not
the conflict error, because the guard at aio.py:720 tests _music_mode. -/
theorem C4_counterexample :
    start_music_entry false true false = .okAlready ∧
    start_music_entry false true false ≠ .conflict := by decide

/-- Claim C4 (amended): a plain (non-reconnect) start fails with the
conflict error exactly when _music_mode (MusicModeDesired) is true — in
particular in the ordinary state where music mode is both desired and
active — while a plain start with _music_mode_state true but _music_mode
false is a no-op success; a reconnect re-negotiation while
_music_mode_state (MusicModeActive) is true returns success without
performing the handshake. -/
theorem C4_start_music_guards (mm ms : Bool) :
    (start_music_entry mm ms false = .conflict ↔ mm = true) ∧
    start_music_entry mm true true = .okAlready ∧
    start_music_entry false true false = .okAlready := by
  cases mm <;> cases ms <;> decide

/-! ### Claim C6 -/

/-- Claim C6: with a callback registered, if the local listener has not
accepted within the 0.5-second short wait, exactly one transient
connected=false notification is emitted and waiting continues for the
remainder of the request timeout; if acceptance also fails there,
everything is force-stopped and the music-mode timeout error is raised;
late acceptance yields exactly one transient connected=false before the
final connected=true; early acceptance yields no transient disconnect
before the final connected=true. -/
theorem C6_music_accept_ladder (listenerStarts : Bool) :
    ((start_music_accept true .never listenerStarts).2 = .error .enableTimeout ∧
     (start_music_accept true .never listenerStarts).1.count
       (.notify disconnectedPayload) = 1 ∧
     MusicAction.forceStopMusic ∈ (start_music_accept true .never listenerStarts).1) ∧
    ((start_music_accept true .late true).1 =
       [.sentSetMusic, .stoppedListening, .notify disconnectedPayload,
        .adoptConnection, .notify connectedPayload] ∧
     (start_music_accept true .late true).2 = .ok "ok") ∧
    ((start_music_accept true .early true).1 =
       [.sentSetMusic, .stoppedListening, .adoptConnection,
        .notify connectedPayload] ∧
     (start_music_accept true .early true).2 = .ok "ok") := by
  cases listenerStarts <;>
    exact ⟨⟨rfl, rfl, by simp [start_music_accept]⟩, ⟨rfl, rfl⟩, ⟨rfl, rfl⟩⟩

/-! ### Claim C8 -/

/-- Claim C8 counterexample: the synthetic success payload that the
music-mode branch of async_send_command passes to the registered callback
(aio.py:97) is the bare result dictionary and carries no "connected"
key, refuting that every mapping passed to the callback contains a
boolean "connected" key. -/
theorem C8_counterexample :
    (async_send_command true true true none).2 = [syntheticSuccessPayload] ∧
    hasConnectedBool syntheticSuccessPayload = false := by decide

/-- Claim C8 (amended): every mapping the engine passes to the registered
callback from the read loop (ping replies and props notifications) and
from the connect/disconnect paths carries a boolean "connected" key; the
one exception is the synthetic success payload of the music-mode send
path, which is the bare result dictionary without a "connected" key. -/
theorem C8_connected_key (p : String) (d : List (String × JVal)) :
    hasConnectedBool (pingReplyPayload p) = true ∧
    hasConnectedBool (propsPayload d) = true ∧
    hasConnectedBool connectedPayload = true ∧
    hasConnectedBool disconnectedPayload = true ∧
    syntheticSuccessPayload.lookup KEY_CONNECTED = none := by
  refine ⟨by simp [hasConnectedBool, pingReplyPayload, JVal.isBool], ?_,
    by decide, by decide, by decide⟩
  unfold propsPayload dictSet hasConnectedBool
  by_cases h : d.any (fun kv => kv.1 == KEY_CONNECTED) = true
  · rw [if_pos h]
    rcases List.any_eq_true.mp h with ⟨kv, hkv, hk⟩
    refine List.any_eq_true.mpr
      ⟨(KEY_CONNECTED, JVal.bool true), List.mem_map.mpr ⟨kv, hkv, ?_⟩, ?_⟩
    · simp [hk]
    · simp [JVal.isBool]
  · rw [if_neg h]
    refine List.any_eq_true.mpr
      ⟨(KEY_CONNECTED, JVal.bool true), ?_, by simp [JVal.isBool]⟩
    simp

/-! ### Frame lemmas for the line-dispatch blocks -/

/-- The error/props blocks touch only the backoff flag (on a backoff
error) and the tracked power value: timeouts, the music-mode flags and
the pending table policy fields are untouched. -/
theorem after_id_frame (cr : Bool) (st : LoopState) (m : Msg) :
    (after_id cr st m).1.timeouts = st.timeouts ∧
    (after_id cr st m).1.music_mode = st.music_mode ∧
    (after_id cr st m).1.music_expect_disconnect = st.music_expect_disconnect := by
  unfold after_id
  split
  · split <;> exact ⟨rfl, rfl, rfl⟩
  · split
    · split
      · split <;> exact ⟨rfl, rfl, rfl⟩
      · exact ⟨rfl, rfl, rfl⟩
    · exact ⟨rfl, rfl, rfl⟩

/-- Dispatching one decoded line never changes the timeout counter or the
music-mode flags. -/
theorem dispatch_line_frame (cr : Bool) (st : LoopState) (m : Msg) :
    (dispatch_line cr st m).1.timeouts = st.timeouts ∧
    (dispatch_line cr st m).1.music_mode = st.music_mode ∧
    (dispatch_line cr st m).1.music_expect_disconnect = st.music_expect_disconnect := by
  unfold dispatch_line
  split
  · split
    · exact after_id_frame ..
    · split
      · split
        · split
          · split <;> exact ⟨rfl, rfl, rfl⟩
          · exact ⟨rfl, rfl, rfl⟩
        · exact ⟨rfl, rfl, rfl⟩
      · exact after_id_frame ..
  · exact after_id_frame ..

/-- Unless the line is one of the reconnect-triggering errors, the
error/props blocks leave the backoff flag alone. -/
theorem after_id_backoff (cr : Bool) (st : LoopState) (m : Msg)
    (hben : reconnect_error m = false) :
    (after_id cr st m).1.socket_backoff = st.socket_backoff := by
  unfold after_id
  rw [hben]
  simp only [Bool.false_eq_true, if_false]
  split
  · split
    · split <;> rfl
    · rfl
  · rfl

/-- Unless the line is one of the reconnect-triggering errors, dispatching
it leaves the backoff flag alone. -/
theorem dispatch_line_backoff (cr : Bool) (st : LoopState) (m : Msg)
    (hben : reconnect_error m = false) :
    (dispatch_line cr st m).1.socket_backoff = st.socket_backoff := by
  unfold dispatch_line
  split
  · split
    · exact after_id_backoff _ _ _ hben
    · split
      · split
        · split
          · split <;> rfl
          · rfl
        · rfl
      · exact after_id_backoff _ _ _ hben
  · exact after_id_backoff _ _ _ hben

/-! ### Claim C3 -/

/-- Claim C3: in the read loop with music mode inactive and a writable
transport, the first elapsed deadline sends exactly one probe
(get_prop power, with no future registered, so the pending table is
unchanged) and remembers its id as the ping id; a second consecutive
elapsed deadline abandons the connection without sending anything; and
any successfully received line resets the consecutive-timeout count to
zero. -/
theorem C3_ping_then_abandon (cr : Bool) (st : LoopState)
    (hm : st.music_mode_state = false) (hw : st.writer_present = true) :
    (st.timeouts = 0 →
      connection_loop_step cr st .timedOut =
        ({ st with timeouts := 1, cmd_id := st.cmd_id + 1,
                   ping_id := (st.cmd_id + 1 : Nat) },
         [.sent (st.cmd_id + 1) "get_prop" ["power"] false], .next)) ∧
    (st.timeouts = 1 →
      connection_loop_step cr st .timedOut =
        ({ st with timeouts := 2 }, [], .abandon)) ∧
    (∀ m, (connection_loop_step cr st (.line (.msg m))).1.timeouts = 0) := by
  refine ⟨fun h0 => ?_, fun h1 => ?_, fun m => ?_⟩
  · simp [connection_loop_step, hm, hw, h0]
  · simp [connection_loop_step, hm, hw, h1]
  · simp only [connection_loop_step, hm, Bool.false_eq_true, if_false]
    exact (dispatch_line_frame cr _ m).1

/-- Claim C3 witness: the theorem instantiated at a connected idle state
with command id 7. -/
def idleState : LoopState :=
  { initial_state with
    writer_present := true, callback_present := true,
    is_listening := true, cmd_id := 7 }

theorem C3_witness :
    idleState.music_mode_state = false ∧ idleState.writer_present = true ∧
    connection_loop_step false idleState .timedOut =
      ({ idleState with timeouts := 1, cmd_id := 8, ping_id := 8 },
       [.sent 8 "get_prop" ["power"] false], .next) :=
  ⟨rfl, rfl, by
    have h := (C3_ping_then_abandon false idleState rfl rfl).1 rfl
    exact h⟩

/-! ### Claim C5 -/

/-- Claim C5 counterexample: starting from the freshly constructed state,
one reconnect attempt begins (async_backoff sets the flag) and the
following connect succeeds — yet the flag is still true, and the next
backoff after that success does sleep, refuting that a successful connect
clears the flag. -/
theorem C5_counterexample :
    (reconnect_success (async_backoff initial_state).1).1.socket_backoff = true ∧
    (async_backoff (reconnect_success (async_backoff initial_state).1).1).2 = true :=
  ⟨rfl, rfl⟩

/-- Claim C5 (amended): the backoff flag is false when the bulb is
created; it is set once a reconnect attempt begins; a successful connect
leaves it unchanged — it is the first successfully received line on the
new connection (any line other than a reconnect-triggering error) that
clears it; hence a backoff that follows a success whose connection
delivered such a line does not sleep. -/
theorem C5_backoff_lifecycle (cr : Bool) (st : LoopState) (m : Msg)
    (hben : reconnect_error m = false) :
    initial_state.socket_backoff = false ∧
    (async_backoff st).1.socket_backoff = true ∧
    (reconnect_success st).1.socket_backoff = st.socket_backoff ∧
    (connection_loop_step cr st (.line (.msg m))).1.socket_backoff = false ∧
    (async_backoff (connection_loop_step cr
        (reconnect_success (async_backoff st).1).1 (.line (.msg m))).1).2 = false := by
  have hline : ∀ s : LoopState,
      (connection_loop_step cr s (.line (.msg m))).1.socket_backoff = false := by
    intro s
    simp only [connection_loop_step]
    split
    · rw [dispatch_line_backoff cr _ m hben]
    · rw [dispatch_line_backoff cr _ m hben]
  exact ⟨rfl, rfl, rfl, hline st, by rw [async_backoff, hline]⟩

/-- Claim C5 witness: the amended lifecycle instantiated at an arbitrary
state and a benign props-free reply line. -/
def benignMsg : Msg :=
  { id? := none, method? := none, result := none, error? := none, params := none }

theorem C5_witness :
    reconnect_error benignMsg = false ∧
    (connection_loop_step false initial_state (.line (.msg benignMsg))).1.socket_backoff
      = false :=
  ⟨rfl, (C5_backoff_lifecycle false initial_state benignMsg rfl).2.2.2.1⟩

/-! ### Claim C7 -/

/-- Claim C7: a non-ping turn-off while music mode is desired sets the
expected-disconnect flag (before the power-off command is even built,
aio.py:541-543), and the listen-task teardown never delivers a
connected=false notification while the expected-disconnect flag is
set. -/
theorem C7_expected_disconnect (st st' : LoopState)
    (hdes : st.music_mode = true) (hexp : st'.music_expect_disconnect = true) :
    (async_turn_off_flags st false).music_expect_disconnect = true ∧
    LoopAction.notified disconnectedPayload ∉ (run_listen_finalize st').2 := by
  constructor
  · simp [async_turn_off_flags, hdes]
  · simp [run_listen_finalize, hexp]

/-- Claim C7 witness: the theorem instantiated at a music-mode-desired
state and at a teardown state with the flag set. -/
def musicOnState : LoopState :=
  { initial_state with
    music_mode := true, music_mode_state := true,
    writer_present := true, callback_present := true, is_listening := true }

theorem C7_witness :
    musicOnState.music_mode = true ∧
    (async_turn_off_flags musicOnState false).music_expect_disconnect = true ∧
    LoopAction.notified disconnectedPayload ∉
      (run_listen_finalize (async_turn_off_flags musicOnState false)).2 := by
  have h := C7_expected_disconnect musicOnState
    (async_turn_off_flags musicOnState false) rfl rfl
  exact ⟨rfl, h.1, h.2⟩

/-! ### Claim C10 -/

/-- Claim C10: when the read deadline elapses in music mode with the last
known power state not "on" (and a writable transport), the keepalive is
issued as a turn-off with is_ping true, the loop continues, and neither
_music_mode nor _music_expect_disconnect changes — the keepalive never
disables music mode nor suppresses later disconnect notifications. -/
theorem C10_music_keepalive_frame (cr : Bool) (st : LoopState)
    (hm : st.music_mode_state = true) (hw : st.writer_present = true)
    (hp : st.last_power ≠ "on") :
    LoopAction.keepaliveTurnOff true ∈ (connection_loop_step cr st .timedOut).2.1 ∧
    (connection_loop_step cr st .timedOut).1.music_mode = st.music_mode ∧
    (connection_loop_step cr st .timedOut).1.music_expect_disconnect =
      st.music_expect_disconnect ∧
    (connection_loop_step cr st .timedOut).2.2 = .next := by
  have hbeq : (st.last_power == "on") = false := by
    simpa using hp
  simp [connection_loop_step, hm, hw, hbeq, async_turn_off_flags]

/-- Claim C10 witness: the theorem instantiated at a music-mode state
whose last known power is "off". -/
def musicIdleOffState : LoopState :=
  { initial_state with
    music_mode := true, music_mode_state := true,
    writer_present := true, callback_present := true, is_listening := true,
    last_power := "off" }

theorem C10_witness :
    musicIdleOffState.last_power ≠ "on" ∧
    LoopAction.keepaliveTurnOff true ∈
      (connection_loop_step false musicIdleOffState .timedOut).2.1 ∧
    (connection_loop_step false musicIdleOffState .timedOut).1.music_mode = true := by
  have h := C10_music_keepalive_frame false musicIdleOffState rfl rfl (by decide)
  exact ⟨by decide, h.1, h.2.1⟩

/-! ### Claim C1: reply routing -/

/-- The id-dispatch block only ever removes entries from the pending
table. -/
theorem dispatch_id_pending_subset (p : List Nat) (f : List (Nat × Msg)) (m : Msg) :
    (dispatch_id p f m).1 ⊆ p := by
  unfold dispatch_id
  split
  · exact fun _ h => h
  · split
    · exact List.erase_subset _ _
    · exact fun _ h => h

/-- Results already set on futures persist through further routing. -/
theorem route_msgs_mono (ms : List Msg) :
    ∀ p f x, x ∈ f → x ∈ (route_msgs p f ms).2 := by
  induction ms with
  | nil => exact fun _ _ _ h => h
  | cons m ms ih =>
    intro p f x hx
    apply ih
    unfold dispatch_id
    split
    · exact hx
    · split
      · exact List.mem_cons_of_mem _ hx
      · exact hx

/-- Soundness of routing: every result set on a future during routing
either predates it or is a reply from the routed list whose id was a
pending id, paired with that very id. -/
theorem route_msgs_sound (ms : List Msg) :
    ∀ p f i m, (i, m) ∈ (route_msgs p f ms).2 →
      (i, m) ∈ f ∨ (m ∈ ms ∧ m.id? = some i ∧ i ∈ p) := by
  induction ms with
  | nil => exact fun _ _ _ _ h => Or.inl h
  | cons m0 ms ih =>
    intro p f i m h
    rcases ih _ _ _ _ h with hf | ⟨hm, hid, hp⟩
    · revert hf
      unfold dispatch_id
      split
      · exact Or.inl
      · next j heq =>
        split
        · intro hf
          rcases List.mem_cons.mp hf with he | hf
          · obtain ⟨h1, h2⟩ := Prod.mk.injEq .. ▸ he
            subst h2
            exact Or.inr ⟨List.mem_cons_self _ _, by rw [heq, h1], h1 ▸ (by assumption)⟩
          · exact Or.inl hf
        · exact Or.inl
    · exact Or.inr ⟨List.mem_cons_of_mem _ hm, hid,
        dispatch_id_pending_subset p f m0 hp⟩

/-- Completeness of routing, under the invariant that the routed replies
carry pairwise distinct ids: every reply whose id is a pending id is set
as the result of that id's future. -/
theorem route_msgs_complete (ms : List Msg) :
    ∀ p f i m, (ms.filterMap Msg.id?).Nodup → m ∈ ms → m.id? = some i → i ∈ p →
      (i, m) ∈ (route_msgs p f ms).2 := by
  induction ms with
  | nil => intro _ _ _ _ _ hm; cases hm
  | cons m0 ms ih =>
    intro p f i m hnd hm hid hp
    rcases List.mem_cons.mp hm with rfl | hm'
    · show (i, m) ∈ (route_msgs (dispatch_id p f m).1 (dispatch_id p f m).2 ms).2
      unfold dispatch_id
      rw [hid]
      simp only [hp, if_true]
      exact route_msgs_mono ms _ _ _ (List.mem_cons_self _ _)
    · show (i, m) ∈ (route_msgs (dispatch_id p f m0).1 (dispatch_id p f m0).2 ms).2
      have hifm : i ∈ ms.filterMap Msg.id? :=
        List.mem_filterMap.mpr ⟨m, hm', hid⟩
      cases h0 : m0.id? with
      | none =>
        have hnd' : (ms.filterMap Msg.id?).Nodup := by
          rwa [List.filterMap_cons_none h0] at hnd
        unfold dispatch_id
        rw [h0]
        exact ih _ _ _ _ hnd' hm' hid hp
      | some j =>
        have hcons : (m0 :: ms).filterMap Msg.id? = j :: ms.filterMap Msg.id? :=
          List.filterMap_cons_some h0
        rw [hcons] at hnd
        have hij : i ≠ j := fun he => (List.nodup_cons.mp hnd).1 (he ▸ hifm)
        have hnd' : (ms.filterMap Msg.id?).Nodup := (List.nodup_cons.mp hnd).2
        unfold dispatch_id
        rw [h0]
        by_cases hjp : j ∈ p
        · simp only [hjp, if_true]
          exact ih _ _ _ _ hnd' hm' hid ((List.mem_erase_of_ne hij).mpr hp)
        · simp only [hjp, if_false]
          exact ih _ _ _ _ hnd' hm' hid hp

/-- Among replies with pairwise distinct ids, a given id determines the
reply. -/
theorem reply_unique_of_ids_nodup (ms : List Msg)
    (hnd : (ms.filterMap Msg.id?).Nodup) {i : Nat} {m m' : Msg}
    (hm : m ∈ ms) (hm' : m' ∈ ms)
    (h1 : m.id? = some i) (h2 : m'.id? = some i) : m = m' := by
  induction ms with
  | nil => cases hm
  | cons m0 ms ih =>
    cases h0 : m0.id? with
    | none =>
      have hnd' : (ms.filterMap Msg.id?).Nodup := by
        rwa [List.filterMap_cons_none h0] at hnd
      rcases List.mem_cons.mp hm with rfl | hma
      · rw [h0] at h1; cases h1
      · rcases List.mem_cons.mp hm' with rfl | hmb
        · rw [h0] at h2; cases h2
        · exact ih hnd' hma hmb
    | some j =>
      have hcons : (m0 :: ms).filterMap Msg.id? = j :: ms.filterMap Msg.id? :=
        List.filterMap_cons_some h0
      rw [hcons] at hnd
      have hjt : j ∉ ms.filterMap Msg.id? := (List.nodup_cons.mp hnd).1
      have hnd' : (ms.filterMap Msg.id?).Nodup := (List.nodup_cons.mp hnd).2
      rcases List.mem_cons.mp hm with rfl | hma
      · rcases List.mem_cons.mp hm' with rfl | hmb
        · rfl
        · exfalso
          have : i = j := by rw [h0] at h1; exact (Option.some.injEq ..).mp h1.symm
          exact hjt (this ▸ List.mem_filterMap.mpr ⟨m', hmb, h2⟩)
      · rcases List.mem_cons.mp hm' with rfl | hmb
        · exfalso
          have : i = j := by rw [h0] at h2; exact (Option.some.injEq ..).mp h2.symm
          exact hjt (this ▸ List.mem_filterMap.mpr ⟨m, hma, h1⟩)
        · exact ih hnd' hma hmb

/-- Claim C1: for any pending-command table, routing a list of reply lines
with pairwise distinct ids sets, for each id, exactly the matching
pending slot's result to exactly the reply carrying that id — the set of
fulfilled (id, reply) pairs is the same for any arrival order — and a
reply whose id matches no pending slot fulfills no slot. -/
theorem C1_reply_routing (p : List Nat) (ms₁ ms₂ : List Msg)
    (hperm : ms₁.Perm ms₂) (hids : (ms₁.filterMap Msg.id?).Nodup) :
    (∀ i m, (i, m) ∈ (route_msgs p [] ms₁).2 ↔
      (m ∈ ms₁ ∧ m.id? = some i ∧ i ∈ p)) ∧
    (∀ i m, (i, m) ∈ (route_msgs p [] ms₂).2 ↔
      (i, m) ∈ (route_msgs p [] ms₁).2) ∧
    (∀ i m m', (i, m) ∈ (route_msgs p [] ms₁).2 →
      (i, m') ∈ (route_msgs p [] ms₁).2 → m = m') ∧
    (∀ f m, (∀ i, m.id? = some i → i ∉ p) → dispatch_id p f m = (p, f)) := by
  have hids₂ : (ms₂.filterMap Msg.id?).Nodup :=
    ((hperm.filterMap Msg.id?).nodup_iff).mp hids
  have hchar : ∀ i m, (i, m) ∈ (route_msgs p [] ms₁).2 ↔
      (m ∈ ms₁ ∧ m.id? = some i ∧ i ∈ p) := by
    intro i m
    constructor
    · intro h
      rcases route_msgs_sound ms₁ p [] i m h with hf | hok
      · cases hf
      · exact hok
    · rintro ⟨hm, hid, hp⟩
      exact route_msgs_complete ms₁ p [] i m hids hm hid hp
  have hchar₂ : ∀ i m, (i, m) ∈ (route_msgs p [] ms₂).2 ↔
      (m ∈ ms₂ ∧ m.id? = some i ∧ i ∈ p) := by
    intro i m
    constructor
    · intro h
      rcases route_msgs_sound ms₂ p [] i m h with hf | hok
      · cases hf
      · exact hok
    · rintro ⟨hm, hid, hp⟩
      exact route_msgs_complete ms₂ p [] i m hids₂ hm hid hp
  refine ⟨hchar, fun i m => ?_, fun i m m' h1 h2 => ?_, fun f m hno => ?_⟩
  · rw [hchar₂ i m, hchar i m, hperm.mem_iff]
  · have c1 := (hchar i m).mp h1
    have c2 := (hchar i m').mp h2
    exact reply_unique_of_ids_nodup ms₁ hids c1.1 c2.1 c1.2.1 c2.2.1
  · unfold dispatch_id
    cases hm : m.id? with
    | none => rfl
    | some i => simp [hno i hm]

/-- Claim C1 witness: ids 1, 2, 3 outstanding, replies arriving in the
order 3, 1, 2 — each resolves its own slot. -/
def mkReply (i : Nat) : Msg :=
  { id? := some i, method? := none, result := some ["on"], error? := none,
    params := none }

theorem C1_witness :
    (3, mkReply 3) ∈ (route_msgs [1, 2, 3] [] [mkReply 3, mkReply 1, mkReply 2]).2 ∧
    (1, mkReply 1) ∈ (route_msgs [1, 2, 3] [] [mkReply 3, mkReply 1, mkReply 2]).2 ∧
    (2, mkReply 2) ∈ (route_msgs [1, 2, 3] [] [mkReply 3, mkReply 1, mkReply 2]).2 := by
  have h := C1_reply_routing [1, 2, 3]
    [mkReply 3, mkReply 1, mkReply 2] [mkReply 1, mkReply 2, mkReply 3]
    (by decide) (by decide)
  exact ⟨(h.1 3 (mkReply 3)).mpr (by decide),
         (h.1 1 (mkReply 1)).mpr (by decide),
         (h.1 2 (mkReply 2)).mpr (by decide)⟩

/-! ### Claim C9 -/

/-- A connected-and-idle state expecting a ping reply with id 5, used to
exercise the ping-reply dispatch path. -/
def awaitingPingState : LoopState :=
  { initial_state with
    ping_id := 5, cmd_id := 5, writer_present := true,
    callback_present := true, is_listening := true, timeouts := 1 }

/-- The ping reply the device sends back for the get_prop power probe with
id 5. -/
def pingReply : Msg :=
  { id? := some 5, method? := none, result := some ["on"], error? := none,
    params := none }

/-- Claim C9 counterexample: on the ping-reply path (aio.py:285-291) the
callback invocation is not wrapped in try/except, so a raising callback
escapes _async_connection_loop (and _async_run_listen has no handler,
terminating the listen task): dispatching a ping reply with a raising
callback crashes the loop instead of continuing. -/
theorem C9_counterexample :
    (connection_loop_step true awaitingPingState (.line (.msg pingReply))).2.2 =
      .crashed ∧
    (connection_loop_step true awaitingPingState (.line (.msg pingReply))).2.1 =
      [.notified (pingReplyPayload "on")] := by
  exact ⟨rfl, rfl⟩

/-- Claim C9 (amended): an exception raised by the external notification
callback is caught and logged only on the props-notification path
(aio.py:315-318), where the loop continues; on the ping-reply path
(aio.py:290) the callback is invoked without a handler, so a raising
callback escapes the read loop and terminates the listen session. -/
theorem C9_callback_exception_scope (st : LoopState) (m pm : Msg)
    (ps : List (String × JVal)) (i : Nat) (pw : String)
    (hid : m.id? = none) (hmeth : m.method? = some "props")
    (herr : reconnect_error m = false) (hps : m.params = some ps)
    (hpid : pm.id? = some i) (hnp : i ∉ st.pending)
    (hpg : (i : Int) = st.ping_id) (hres : pm.result = some [pw])
    (hcb : st.callback_present = true) :
    (connection_loop_step true st (.line (.msg m))).2.2 = .next ∧
    (connection_loop_step true st (.line (.msg pm))).2.2 = .crashed := by
  constructor
  · simp only [connection_loop_step]
    have hafter : ∀ s : LoopState, s.callback_present = st.callback_present →
        (after_id true s m).2.2 = .next := by
      intro s hs
      unfold after_id
      rw [herr]
      simp [hmeth, hps, hs, hcb]
    split
    · unfold dispatch_line
      rw [hid]
      exact hafter _ rfl
    · unfold dispatch_line
      rw [hid]
      exact hafter _ rfl
  · simp only [connection_loop_step]
    split
    · unfold dispatch_line
      rw [hpid]
      simp only [List.instMembership] at hnp ⊢
      simp [hnp, hpg, hres, hcb]
    · unfold dispatch_line
      rw [hpid]
      simp [hnp, hpg, hres, hcb]

/-- Claim C9 witness: the amended theorem at the concrete idle state,
a concrete props notification and the concrete ping reply. -/
def propsNotification : Msg :=
  { id? := none, method? := some "props", result := none, error? := none,
    params := some [("power", .str "on")] }

theorem C9_witness :
    (connection_loop_step true awaitingPingState
        (.line (.msg propsNotification))).2.2 = .next ∧
    (connection_loop_step true awaitingPingState
        (.line (.msg pingReply))).2.2 = .crashed := by
  have h := C9_callback_exception_scope awaitingPingState propsNotification
    pingReply [("power", .str "on")] 5 "on" rfl rfl rfl rfl rfl
    (by decide) rfl rfl rfl
  exact h

end Yeelight
